import Mathlib

/-!
Verification of the client-side inference orchestration logic of the
Cervical-Cancer-Classifier frontend (src/frontend/src/App.jsx, and the
earlier single-model variant src/unnamed/part_000).

The React component state is embedded as an explicit record `AppState`
(one field per `useState` hook).  Each event handler of the component is
embedded as a pure state-transition function; the synchronous phase of an
asynchronous handler and the continuation that runs when its network call
settles are embedded separately, with an explicit Boolean recording
whether a network request was issued.  Numbers are modelled as rationals.
-/

/-- Confidence tiers named by the spec; the source encodes them as the CSS
color classes returned by getConfidenceColor (green = high, yellow = medium,
red = low). -/
inductive Tier where
  | high
  | medium
  | low
deriving DecidableEq, Repr

/-- Embedding of getConfidenceColor (App.jsx lines 82-86, identical in
part_000 lines 49-53): confidence above 0.8 is green, above 0.6 yellow,
otherwise red. -/
def getConfidenceColor (confidence : ℚ) : String :=
  if confidence > 4/5 then "text-green-600"
  else if confidence > 3/5 then "text-yellow-600"
  else "text-red-600"

/-- The same decision tree as getConfidenceColor, valued in the tier names of the spec
rather than CSS classes. -/
def confidenceTier (confidence : ℚ) : Tier :=
  if confidence > 4/5 then .high
  else if confidence > 3/5 then .medium
  else .low

/-- The CSS class the source uses for each tier. -/
def colorOfTier : Tier → String
  | .high => "text-green-600"
  | .medium => "text-yellow-600"
  | .low => "text-red-600"

/-- C1: for every confidence value c, the tier is high iff c > 0.8, medium
iff 0.6 < c <= 0.8 and low iff c <= 0.6; the boundary values 0.8 and 0.6
fall in the lower tier, and the tier function is exactly the original
getConfidenceColor read through the color-to-tier naming. -/
theorem C1_confidence_tier_boundaries (c : ℚ) :
    getConfidenceColor c = colorOfTier (confidenceTier c) ∧
    (confidenceTier c = .high ↔ 4/5 < c) ∧
    (confidenceTier c = .medium ↔ 3/5 < c ∧ c ≤ 4/5) ∧
    (confidenceTier c = .low ↔ c ≤ 3/5) ∧
    confidenceTier (4/5) = .medium ∧ confidenceTier (3/5) = .low := by
  refine ⟨?_, ?_, ?_, ?_, ?_, ?_⟩
  · unfold getConfidenceColor confidenceTier colorOfTier
    split_ifs <;> rfl
  · unfold confidenceTier
    split_ifs with h1 h2 <;> simp_all
  · unfold confidenceTier
    split_ifs with h1 h2 <;> simp_all <;>
      first
      | linarith
      | (intro h; linarith)
  · unfold confidenceTier
    split_ifs with h1 h2 <;> simp_all <;>
      first
      | linarith
      | (intro h; linarith)
  · unfold confidenceTier
    norm_num
  · unfold confidenceTier
    norm_num

/-- Body of a 2xx inference response as the handler stores it (`response.data`).
Every field is optional because the handler performs no validation and a JSON
body may lack any of them; all_predictions is the class-probability mapping in
the key order of the JSON object. -/
structure PredictionBody where
  predictionLabel : Option String
  confidence : Option ℚ
  allPredictions : List (String × ℚ)
  modelType : Option String
deriving DecidableEq, Repr

/-- Evaluation-metrics record as stored by loadMetrics (field names as in the
catch-branch default object of App.jsx lines 28-33). -/
structure Metrics where
  accuracy : ℚ
  precisionVal : ℚ
  recallVal : ℚ
  f1Score : ℚ
deriving DecidableEq, Repr

/-- Component state of App (App.jsx lines 6-13), one field per useState hook.
Files are identified by their handle (a string); modelId is a plain string
because the code stores whatever string handleModelChange receives. -/
structure AppState where
  selectedFile : Option String
  previewUrl : Option String
  prediction : Option PredictionBody
  loading : Bool
  error : String
  selectedModel : String
  evaluationMetrics : Option Metrics
  loadingMetrics : Bool
deriving DecidableEq, Repr

/-- Embedding of handleFileSelect (App.jsx lines 39-47): the file of the
event, if any, replaces the selection, stores the object URL the browser
allocated for this call as the preview, and clears prediction and error; an
event carrying no file (the `if (file)` guard fails) does nothing.  The
freshUrl argument is the value URL.createObjectURL returns for this call:
the browser allocates a fresh, unique blob URL on every call, so two calls
always receive distinct values here, even for the same file. -/
def handleFileSelect (file : Option String) (freshUrl : String)
    (s : AppState) : AppState :=
  match file with
  | none => s
  | some f =>
      { s with selectedFile := some f, previewUrl := some freshUrl,
               prediction := none, error := "" }

/-- Embedding of handleModelChange (App.jsx lines 49-52): stores the given
model string unconditionally and clears the prediction. -/
def handleModelChange (modelType : String) (s : AppState) : AppState :=
  { s with selectedModel := modelType, prediction := none }

/-- The user-facing message set by handlePredict when no file is selected. -/
def noFileMsg : String := "Please select an image first"

/-- Synchronous phase of handlePredict (App.jsx lines 54-66): with no file it
sets the error and returns without a request; otherwise it enters Loading,
clears the error and issues the request.  The Boolean records whether the
network request was issued.  Note the function itself never inspects
`loading`. -/
def handlePredictStart (s : AppState) : AppState × Bool :=
  match s.selectedFile with
  | none => ({ s with error := noFileMsg }, false)
  | some _ => ({ s with loading := true, error := "" }, true)

/-- Embedding of the click path of the Analyze button (App.jsx lines 259-261): the
button carries `disabled = loading or no file`, so a click while disabled
never invokes handlePredict at all. -/
def clickAnalyze (s : AppState) : AppState × Bool :=
  if s.loading || s.selectedFile = none then (s, false)
  else handlePredictStart s

/-- JavaScript `a || b` on an optional string: the fallback is used when the
left side is absent or falsy (the empty string is falsy). -/
def jsOrElse (v : Option String) (fallback : String) : String :=
  match v with
  | some s => if s = "" then fallback else s
  | none => fallback

/-- The generic fallback error message of the catch branch of handlePredict. -/
def genericPredictErr : String := "Failed to make prediction"

/-- Continuation of handlePredict when the request resolves with a 2xx
response (App.jsx lines 74, 78): the body is stored wholesale as the
prediction, with no structural validation, and loading is cleared. -/
def predictResolveOk (s : AppState) (body : PredictionBody) : AppState :=
  { s with prediction := some body, loading := false }

/-- Continuation of handlePredict when the request rejects (App.jsx lines
75-78): the error becomes `err.response?.data?.error || fallback`, where the
optional string is the server-supplied error field (absent on transport
errors and on non-2xx bodies with no error field), and loading is cleared. -/
def predictResolveErr (s : AppState) (serverMsg : Option String) : AppState :=
  { s with error := jsOrElse serverMsg genericPredictErr, loading := false }

/-- The hardcoded fallback metrics of the catch branch of loadMetrics (App.jsx
lines 28-33), identical to the render-time default object (lines 89-94). -/
def defaultMetrics : Metrics :=
  { accuracy := 90/100, precisionVal := 90/100, recallVal := 89/100,
    f1Score := 89/100 }

/-- Outcome of one metrics request.  A fulfilled (2xx) response carries
`response.data.metrics`, which is absent when the 2xx body has no metrics
object (no exception is raised in that case); rejected covers every throw in
the try block: timeout, transport error, non-2xx status. -/
inductive MetricsOutcome where
  | fulfilled (metricsField : Option Metrics)
  | rejected
deriving DecidableEq, Repr

/-- Resolution of one loadMetrics call (App.jsx lines 22-36): a fulfilled
response stores `response.data.metrics` wholesale, a rejection stores the
hardcoded default; loadingMetrics is cleared either way and the user-facing
error field is never touched.  Nothing guards against a stale call: every
resolution overwrites evaluationMetrics unconditionally. -/
def loadMetricsResolve (s : AppState) (r : MetricsOutcome) : AppState :=
  match r with
  | .fulfilled m => { s with evaluationMetrics := m, loadingMetrics := false }
  | .rejected =>
      { s with evaluationMetrics := some defaultMetrics,
               loadingMetrics := false }

/-- Render-time substitution (App.jsx lines 89-94): the metrics actually
displayed are `evaluationMetrics || default`. -/
def displayedMetrics (s : AppState) : Metrics :=
  s.evaluationMetrics.getD defaultMetrics

/-- State after a sequence of metrics resolutions applied in arrival order;
this is what the component computes when several in-flight metrics requests
settle, since each resolution overwrites the state unconditionally. -/
def runMetricsResolutions (s : AppState) (rs : List MetricsOutcome) :
    AppState :=
  rs.foldl loadMetricsResolve s

/-- The metrics value a single resolution writes into the state. -/
def metricsWrittenBy : MetricsOutcome → Option Metrics
  | .fulfilled m => m
  | .rejected => some defaultMetrics

/-- Fetches issued by the `useEffect(..., [selectedModel])` hook (App.jsx
lines 16-18) for a sequence of setSelectedModel values after the mount
fetch: React skips the re-render (and hence the effect) when the stored
value is unchanged, and re-runs the effect exactly when it changes. -/
def metricsFetchesAfterMount (current : String) :
    List String → List String
  | [] => []
  | m :: ms =>
      if m = current then metricsFetchesAfterMount current ms
      else m :: metricsFetchesAfterMount m ms

/-- Number of actual modelId transitions in a sequence of setSelectedModel
values, starting from the given current value. -/
def countModelTransitions (current : String) : List String → Nat
  | [] => 0
  | m :: ms =>
      if m = current then countModelTransitions current ms
      else 1 + countModelTransitions m ms

/-- Numeric value of a digit string. -/
def keyNat (s : String) : Nat :=
  s.data.foldl (fun n c => 10 * n + (c.toNat - 48)) 0

/-- Decimal-digit test on a character, by code point. -/
def charIsDigit (c : Char) : Bool :=
  48 ≤ c.toNat && c.toNat ≤ 57

/-- True of strings that ECMAScript treats as array-index property keys: the
canonical decimal form of an integer below 2^32 - 1, that is, all digits
with no leading zero except for the string "0" itself. -/
def isArrayIndexKey (s : String) : Bool :=
  match s.data with
  | [] => false
  | c :: cs =>
      charIsDigit c && cs.all charIsDigit &&
        (c.toNat ≠ 48 || cs.isEmpty) && keyNat s < 4294967295

/-- Insertion into a list sorted by numeric key value. -/
def insertByKeyNat (p : String × ℚ) :
    List (String × ℚ) → List (String × ℚ)
  | [] => [p]
  | q :: qs =>
      if keyNat p.1 ≤ keyNat q.1 then p :: q :: qs
      else q :: insertByKeyNat p qs

/-- Sort by ascending numeric key value. -/
def sortByKeyNat (l : List (String × ℚ)) : List (String × ℚ) :=
  l.foldr insertByKeyNat []

/-- Embedding of `Object.entries(prediction.all_predictions)` (App.jsx line
216) over a mapping given in insertion order: per the ECMAScript
own-property-key order, keys that are array indices come first in ascending
numeric order, followed by the remaining string keys in insertion order. -/
def orderedProbabilities (m : List (String × ℚ)) : List (String × ℚ) :=
  sortByKeyNat (m.filter fun p => isArrayIndexKey p.1) ++
    (m.filter fun p => !isArrayIndexKey p.1)

/-- A state with a file selected and an inference request in flight. -/
def baseState : AppState :=
  { selectedFile := some "cell.png",
    previewUrl := some "blob:cell.png/0", prediction := none,
    loading := true, error := "", selectedModel := "vgg16",
    evaluationMetrics := none, loadingMetrics := false }

/-- A well-formed prediction body (the modelB success scenario of the spec). -/
def sampleBody : PredictionBody :=
  { predictionLabel := some "Negative", confidence := some (93/100),
    allPredictions :=
      [("Negative", 93/100), ("Low", 5/100), ("High", 1/100),
       ("Carcinoma", 1/100)],
    modelType := some "vgg16" }

/-- An idle state currently holding a prediction. -/
def stateWithPrediction : AppState :=
  { selectedFile := some "cell.png",
    previewUrl := some "blob:cell.png/0",
    prediction := some sampleBody, loading := false, error := "",
    selectedModel := "vgg16", evaluationMetrics := none,
    loadingMetrics := false }

/-- A 2xx response body with no confidence field. -/
def noConfidenceBody : PredictionBody :=
  { predictionLabel := some "Negative", confidence := none,
    allPredictions := [("Negative", 93/100)], modelType := some "vgg16" }

/-- Metrics payloads of two distinct in-flight requests. -/
def metricsA : Metrics :=
  { accuracy := 95/100, precisionVal := 94/100, recallVal := 93/100,
    f1Score := 94/100 }

/-- A second, different metrics payload. -/
def metricsB : Metrics :=
  { accuracy := 80/100, precisionVal := 81/100, recallVal := 82/100,
    f1Score := 83/100 }

/-- C2 counterexample: in a state with a file selected and a request already
Loading, handlePredict (the submit operation of the source) still issues a network request,
so a second submit while Loading is not a no-op. -/
theorem C2_submit_while_loading_counterexample :
    baseState.loading = true ∧ (handlePredictStart baseState).2 = true :=
  ⟨rfl, rfl⟩

/-- C2 amended: handlePredict itself guards only on file presence (no file
gives the NoFileSelected message and no request; a file gives a request
regardless of the Loading flag); re-entrancy while Loading is prevented one
layer up, by the Analyze button being disabled, so a click issues a request
iff not Loading and a file is selected. -/
theorem C2_submit_guards (s : AppState) :
    ((clickAnalyze s).2 = true ↔ s.loading = false ∧ s.selectedFile ≠ none) ∧
    (s.selectedFile = none →
      handlePredictStart s = ({ s with error := noFileMsg }, false)) ∧
    (s.loading = true → clickAnalyze s = (s, false)) := by
  obtain ⟨file, prev, pred, l, e, mo, em, lm⟩ := s
  refine ⟨?_, ?_, ?_⟩
  · cases l <;> cases file <;>
      simp [clickAnalyze, handlePredictStart]
  · intro h
    simp only [] at h
    subst h
    rfl
  · intro h
    simp only [] at h
    subst h
    simp [clickAnalyze]

/-- C2 witness: at a concrete Loading state with no file, handlePredict
surfaces the no-file message without a request, and a button click is a
no-op. -/
theorem C2_submit_guards_witness :
    handlePredictStart
        { selectedFile := none, previewUrl := none, prediction := none,
          loading := true, error := "", selectedModel := "vgg16",
          evaluationMetrics := none, loadingMetrics := false } =
      ({ selectedFile := none, previewUrl := none, prediction := none,
         loading := true, error := noFileMsg, selectedModel := "vgg16",
         evaluationMetrics := none, loadingMetrics := false }, false) ∧
    clickAnalyze
        { selectedFile := none, previewUrl := none, prediction := none,
          loading := true, error := "", selectedModel := "vgg16",
          evaluationMetrics := none, loadingMetrics := false } =
      ({ selectedFile := none, previewUrl := none, prediction := none,
         loading := true, error := "", selectedModel := "vgg16",
         evaluationMetrics := none, loadingMetrics := false }, false) :=
  ⟨(C2_submit_guards _).2.1 rfl, (C2_submit_guards _).2.2 rfl⟩

/-- C3 counterexample: a 2xx response body with no confidence field is
stored wholesale as the prediction (a Success state) with the error left
empty — not a MalformedResponse failure. -/
theorem C3_no_validation_counterexample :
    noConfidenceBody.confidence = none ∧
    (predictResolveOk baseState noConfidenceBody).prediction =
      some noConfidenceBody ∧
    (predictResolveOk baseState noConfidenceBody).error = "" :=
  ⟨rfl, rfl, rfl⟩

/-- C3 amended: the handler performs no structural validation of a 2xx
body: even when the label is missing, the confidence is missing, or the
class-probability mapping is empty, the body is stored wholesale as the
prediction, the error field is untouched and Loading is cleared; no
MalformedResponse classification exists in the code. -/
theorem C3_ok_stores_body_unvalidated (s : AppState) (body : PredictionBody)
    (h : body.predictionLabel = none ∨ body.confidence = none ∨
      body.allPredictions = []) :
    (predictResolveOk s body).prediction = some body ∧
    (predictResolveOk s body).error = s.error ∧
    (predictResolveOk s body).loading = false :=
  ⟨rfl, rfl, rfl⟩

/-- C3 witness: the amended statement at the concrete in-flight state and
the concrete body lacking a confidence field. -/
theorem C3_ok_stores_body_unvalidated_witness :
    (predictResolveOk baseState noConfidenceBody).prediction =
      some noConfidenceBody :=
  (C3_ok_stores_body_unvalidated baseState noConfidenceBody
    (Or.inr (Or.inl rfl))).1

/-- C4 counterexample: a non-2xx response whose body carries the empty
string as its error message is surfaced as the generic fallback, not
verbatim (JavaScript `||` treats the empty string as absent). -/
theorem C4_empty_message_counterexample :
    (predictResolveErr baseState (some "")).error = genericPredictErr ∧
    genericPredictErr ≠ "" := by
  constructor
  · rfl
  · decide

/-- C4 amended: the failure message is the server-supplied error message
verbatim when the non-2xx body contains a non-empty one, and the generic
fallback otherwise — on transport errors, on non-2xx responses with no
message, and also when the supplied message is the empty string. -/
theorem C4_error_message_selection (s : AppState) (msg : String) :
    (msg ≠ "" → (predictResolveErr s (some msg)).error = msg) ∧
    (predictResolveErr s (some "")).error = genericPredictErr ∧
    (predictResolveErr s none).error = genericPredictErr := by
  refine ⟨?_, rfl, rfl⟩
  intro h
  simp [predictResolveErr, jsOrElse, h]

/-- C4 witness: the scenario from the spec — HTTP 400 with body error "file too
large" surfaces exactly "file too large". -/
theorem C4_error_message_selection_witness :
    (predictResolveErr baseState (some "file too large")).error =
      "file too large" :=
  (C4_error_message_selection baseState "file too large").1 (by decide)

/-- C7 counterexample: selecting the same file twice does not yield the
same state: URL.createObjectURL allocates a fresh blob URL on each call
(here the two calls receive the distinct URLs the browser returns), so the
two resulting states differ in previewUrl even though both clear the
prediction. -/
theorem C7_fresh_url_counterexample :
    handleFileSelect (some "cell.png") "blob:cell.png/1"
        (handleFileSelect (some "cell.png") "blob:cell.png/0"
          stateWithPrediction) ≠
      handleFileSelect (some "cell.png") "blob:cell.png/0"
        stateWithPrediction ∧
    (handleFileSelect (some "cell.png") "blob:cell.png/1"
        (handleFileSelect (some "cell.png") "blob:cell.png/0"
          stateWithPrediction)).previewUrl ≠
      (handleFileSelect (some "cell.png") "blob:cell.png/0"
        stateWithPrediction).previewUrl := by
  constructor
  · intro h
    have h2 := congrArg AppState.previewUrl h
    simp only [handleFileSelect] at h2
    exact absurd (Option.some.inj h2) (by decide)
  · intro h
    simp only [handleFileSelect] at h
    exact absurd (Option.some.inj h) (by decide)

/-- C7 amended: selecting a file (with a file present) and selecting a
model both clear any held prediction; selecting the same file twice clears
the prediction both times and reproduces the first cleared state in every
field except previewUrl, which differs between the two states because the
browser returns a distinct fresh object URL for each call. -/
theorem C7_selection_clears_prediction (s : AppState) (f m u1 u2 : String)
    (h : u1 ≠ u2) :
    (handleFileSelect (some f) u1 s).prediction = none ∧
    (handleModelChange m s).prediction = none ∧
    (handleFileSelect (some f) u2
        (handleFileSelect (some f) u1 s)).prediction = none ∧
    (handleFileSelect (some f) u2
        (handleFileSelect (some f) u1 s)).selectedFile =
      (handleFileSelect (some f) u1 s).selectedFile ∧
    (handleFileSelect (some f) u2
        (handleFileSelect (some f) u1 s)).error =
      (handleFileSelect (some f) u1 s).error ∧
    (handleFileSelect (some f) u2
        (handleFileSelect (some f) u1 s)).loading =
      (handleFileSelect (some f) u1 s).loading ∧
    (handleFileSelect (some f) u2
        (handleFileSelect (some f) u1 s)).selectedModel =
      (handleFileSelect (some f) u1 s).selectedModel ∧
    (handleFileSelect (some f) u2
        (handleFileSelect (some f) u1 s)).evaluationMetrics =
      (handleFileSelect (some f) u1 s).evaluationMetrics ∧
    (handleFileSelect (some f) u2
        (handleFileSelect (some f) u1 s)).loadingMetrics =
      (handleFileSelect (some f) u1 s).loadingMetrics ∧
    (handleFileSelect (some f) u2
        (handleFileSelect (some f) u1 s)).previewUrl ≠
      (handleFileSelect (some f) u1 s).previewUrl := by
  refine ⟨rfl, rfl, rfl, rfl, rfl, rfl, rfl, rfl, rfl, ?_⟩
  intro hEq
  simp only [handleFileSelect] at hEq
  exact h (Option.some.inj hEq).symm

/-- C7 witness: the amended statement at the concrete state holding a
prediction, with the two distinct browser-returned URLs. -/
theorem C7_selection_clears_prediction_witness :
    (handleFileSelect (some "cell.png") "blob:cell.png/1"
        (handleFileSelect (some "cell.png") "blob:cell.png/0"
          stateWithPrediction)).prediction = none ∧
    (handleFileSelect (some "cell.png") "blob:cell.png/1"
        (handleFileSelect (some "cell.png") "blob:cell.png/0"
          stateWithPrediction)).previewUrl ≠
      (handleFileSelect (some "cell.png") "blob:cell.png/0"
        stateWithPrediction).previewUrl :=
  ⟨(C7_selection_clears_prediction stateWithPrediction "cell.png" "cnn"
      "blob:cell.png/0" "blob:cell.png/1" (by decide)).2.2.1,
   (C7_selection_clears_prediction stateWithPrediction "cell.png" "cnn"
      "blob:cell.png/0" "blob:cell.png/1"
      (by decide)).2.2.2.2.2.2.2.2.2⟩

/-- C10: a file-select event carrying no file (for example a cancelled
picker) leaves the whole state unchanged whatever URL the browser would
have allocated, so an existing prediction is kept. -/
theorem C10_empty_file_event_noop (u : String) (s : AppState) :
    handleFileSelect none u s = s :=
  rfl

/-- Helper: every metrics resolution overwrites evaluationMetrics
unconditionally, so after a run of resolutions the state holds exactly what
the last one to arrive wrote. -/
theorem runMetricsResolutions_getLast (s : AppState)
    (rs : List MetricsOutcome) (r : MetricsOutcome)
    (h : rs.getLast? = some r) :
    (runMetricsResolutions s rs).evaluationMetrics = metricsWrittenBy r := by
  induction rs generalizing s with
  | nil => simp at h
  | cons a t ih =>
    cases t with
    | nil =>
      simp at h
      subst h
      cases a <;> rfl
    | cons b t2 =>
      rw [List.getLast?_cons_cons] at h
      exact ih (loadMetricsResolve s a) h

/-- Helper: the effect hook issues one fetch per actual modelId transition. -/
theorem metricsFetches_length (init : String) (sets : List String) :
    (metricsFetchesAfterMount init sets).length =
      countModelTransitions init sets := by
  induction sets generalizing init with
  | nil => rfl
  | cons m ms ih =>
    simp only [metricsFetchesAfterMount, countModelTransitions]
    split_ifs with hm
    · exact ih init
    · simp [ih m]
      omega

/-- C5 counterexample: a 2xx metrics response whose body has no metrics
object takes the fulfilled path, so the state is set to the absent value,
not to the fallback record; the identical default values only reappear at
render time through the `evaluationMetrics || default` substitution. -/
theorem C5_malformed_body_counterexample :
    (loadMetricsResolve baseState (.fulfilled none)).evaluationMetrics =
      none ∧
    (none : Option Metrics) ≠ some defaultMetrics ∧
    displayedMetrics (loadMetricsResolve baseState (.fulfilled none)) =
      defaultMetrics := by
  refine ⟨rfl, ?_, rfl⟩
  simp

/-- C5 amended: a rejected metrics fetch (timeout, transport error, non-2xx)
sets the metrics state exactly to the fallback default record, while a 2xx
response lacking a metrics object clears the state to absent and the same
default values are substituted at render time; in every case the user-facing
error field is untouched and the metrics spinner is cleared. -/
theorem C5_metrics_failure_fallback (s : AppState) (r : MetricsOutcome) :
    (loadMetricsResolve s .rejected).evaluationMetrics =
      some defaultMetrics ∧
    (loadMetricsResolve s (.fulfilled none)).evaluationMetrics = none ∧
    displayedMetrics (loadMetricsResolve s (.fulfilled none)) =
      defaultMetrics ∧
    (loadMetricsResolve s r).error = s.error ∧
    (loadMetricsResolve s r).loadingMetrics = false := by
  refine ⟨rfl, rfl, rfl, ?_, ?_⟩ <;> cases r <;> rfl

/-- C6 counterexample: requests issued in order first-A then-B, with B (the
most recently issued) resolving first and the stale A resolving last: the
state ends holding the payload of A, because each resolution overwrites
unconditionally — there is no sequence stamp discarding stale results. -/
theorem C6_stale_resolution_counterexample :
    (runMetricsResolutions baseState
        [.fulfilled (some metricsB), .fulfilled (some metricsA)]
      ).evaluationMetrics = some metricsA ∧
    metricsA ≠ metricsB := by
  refine ⟨rfl, ?_⟩
  intro h
  have := congrArg Metrics.accuracy h
  norm_num [metricsA, metricsB] at this

/-- C6 amended: the loader still runs exactly once per modelId transition,
but the metrics applied after interleaved fetches is the payload of the last
resolution to arrive (resolution order), not of the most recently issued
request: stale resolutions overwrite newer ones. -/
theorem C6_metrics_resolution_order (init : String) (sets : List String)
    (s : AppState) (rs : List MetricsOutcome) (r : MetricsOutcome)
    (h : rs.getLast? = some r) :
    (runMetricsResolutions s rs).evaluationMetrics = metricsWrittenBy r ∧
    (metricsFetchesAfterMount init sets).length =
      countModelTransitions init sets :=
  ⟨runMetricsResolutions_getLast s rs r h, metricsFetches_length init sets⟩

/-- C6 witness: a concrete run where a rejected fetch is followed by a
fulfilled one, and a concrete model-switch sequence. -/
theorem C6_metrics_resolution_order_witness :
    (runMetricsResolutions baseState
        [MetricsOutcome.rejected, .fulfilled (some metricsB)]
      ).evaluationMetrics = some metricsB ∧
    (metricsFetchesAfterMount "vgg16" ["cnn", "cnn", "vgg16"]).length =
      countModelTransitions "vgg16" ["cnn", "cnn", "vgg16"] :=
  C6_metrics_resolution_order "vgg16" ["cnn", "cnn", "vgg16"] baseState
    [MetricsOutcome.rejected, .fulfilled (some metricsB)]
    (.fulfilled (some metricsB)) rfl

/-- C8 counterexample: handleModelChange with the out-of-set value "resnet"
is not a no-op: it stores the value, clears the prediction, changes the
state, and (since the stored value changed) the effect hook issues a metrics
fetch for it. -/
theorem C8_unknown_model_counterexample :
    (handleModelChange "resnet" stateWithPrediction).selectedModel =
      "resnet" ∧
    (handleModelChange "resnet" stateWithPrediction).prediction = none ∧
    handleModelChange "resnet" stateWithPrediction ≠ stateWithPrediction ∧
    metricsFetchesAfterMount stateWithPrediction.selectedModel ["resnet"] =
      ["resnet"] := by
  refine ⟨rfl, rfl, ?_, rfl⟩
  intro h
  have h2 := congrArg AppState.selectedModel h
  simp [handleModelChange, stateWithPrediction] at h2

/-- C8 amended: handleModelChange performs no membership validation: any
string, inside the enumerated set or not, is stored as the modelId and the
prediction is cleared while file and error are untouched; the effect hook
then issues a metrics fetch exactly when the stored value differs from the
previous one. -/
theorem C8_model_change_no_validation (m : String) (s : AppState) :
    (handleModelChange m s).selectedModel = m ∧
    (handleModelChange m s).prediction = none ∧
    (handleModelChange m s).selectedFile = s.selectedFile ∧
    (handleModelChange m s).error = s.error ∧
    (m ≠ s.selectedModel →
      metricsFetchesAfterMount s.selectedModel [m] = [m]) ∧
    (m = s.selectedModel →
      metricsFetchesAfterMount s.selectedModel [m] = []) := by
  refine ⟨rfl, rfl, rfl, rfl, ?_, ?_⟩
  · intro h
    simp [metricsFetchesAfterMount, h]
  · intro h
    simp [metricsFetchesAfterMount, h]

/-- C8 witness: switching the concrete state to "resnet" issues one fetch,
re-selecting the already current "vgg16" issues none. -/
theorem C8_model_change_no_validation_witness :
    metricsFetchesAfterMount stateWithPrediction.selectedModel ["resnet"] =
      ["resnet"] ∧
    metricsFetchesAfterMount stateWithPrediction.selectedModel ["vgg16"] =
      [] :=
  ⟨(C8_model_change_no_validation "resnet" stateWithPrediction).2.2.2.2.1
      (by decide),
   (C8_model_change_no_validation "vgg16" stateWithPrediction).2.2.2.2.2
      rfl⟩

/-- C9 counterexample: a class-probability mapping containing an
array-index-like key is reordered by Object.entries: the key "1" is moved in
front of "Negative" even though it was inserted second, so insertion order
is not preserved for every mapping. -/
theorem C9_integer_key_counterexample :
    orderedProbabilities [("Negative", 1/2), ("1", 1/4)] =
      [("1", 1/4), ("Negative", 1/2)] ∧
    ([("1", (1:ℚ)/4), ("Negative", 1/2)] : List (String × ℚ)) ≠
      [("Negative", 1/2), ("1", 1/4)] := by
  constructor
  · rfl
  · decide

/-- C9 amended: orderedProbabilities preserves the insertion order of the
mapping exactly when no key is an array-index string (all digits, no leading
zero, below 2^32 - 1); the class labels of the backend satisfy this, but keys
that are array indices are moved to the front in ascending numeric order. -/
theorem C9_insertion_order_preserved (m : List (String × ℚ))
    (h : ∀ p ∈ m, isArrayIndexKey p.1 = false) :
    orderedProbabilities m = m := by
  unfold orderedProbabilities
  have h1 : (m.filter fun p => isArrayIndexKey p.1) = [] := by
    rw [List.filter_eq_nil]
    intro a ha
    simp [h a ha]
  have h2 : (m.filter fun p => !isArrayIndexKey p.1) = m := by
    rw [List.filter_eq_self]
    intro a ha
    simp [h a ha]
  rw [h1, h2]
  rfl

/-- C9 witness: the four disease-class labels of the sample body are kept in
their exact insertion order. -/
theorem C9_insertion_order_preserved_witness :
    orderedProbabilities
        [("Negative", (93:ℚ)/100), ("Low", 5/100), ("High", 1/100),
         ("Carcinoma", 1/100)] =
      [("Negative", (93:ℚ)/100), ("Low", 5/100), ("High", 1/100),
       ("Carcinoma", 1/100)] :=
  C9_insertion_order_preserved
    [("Negative", (93:ℚ)/100), ("Low", 5/100), ("High", 1/100),
     ("Carcinoma", 1/100)]
    (by decide)
